import Mathlib

/-!
Verification of the TripAdvisor scraper (scrape_search.py, scrape_reviews.py,
search_responses.py) against its natural-language specification.

HTML parsing (parsel selectors) and the HTTP transport are external
collaborators: a fetched page is modelled as the structured view the
selectors produce (the text of each matched node, `Option` for `.get()`
which returns `None` on no match), and the transport as a function from a
URL to a response.  All Python string manipulation that the scraper itself
performs (str.replace, f-string decimal rendering, re.sub tag stripping,
the `(\d*\,*\d+) properties` regex, str.split, str.strip, int()) is
embedded below as executable Lean functions.
-/

/-! ## Python string primitives -/

/-- Characters stripped by Python `str.strip()` with no argument. -/
def pySpaceChar (c : Char) : Bool :=
  c = ' ' ∨ c = '\t' ∨ c = '\n' ∨ c = '\r' ∨ c = '\x0b' ∨ c = '\x0c'

/-- Python `s.strip()`: drop whitespace from both ends. -/
def pyStrip (s : String) : String :=
  String.mk (((s.data.dropWhile pySpaceChar).reverse.dropWhile pySpaceChar).reverse)

/-- Fuelled worker for Python `str.replace`: replace every non-overlapping
occurrence of `p` (non-empty) in the subject, scanning left to right.
The fuel is instantiated with the subject's length, which always suffices. -/
def replaceCharsAux (p r : List Char) : Nat → List Char → List Char
  | _, [] => []
  | 0, s => s
  | fuel+1, c :: s =>
    if p ≠ [] ∧ (c :: s).take p.length = p then
      r ++ replaceCharsAux p r fuel ((c :: s).drop p.length)
    else
      c :: replaceCharsAux p r fuel s

/-- Number of (non-overlapping, left-to-right) occurrences of `p`, with
the same scanning discipline as `replaceCharsAux`. -/
def occAux (p : List Char) : Nat → List Char → Nat
  | _, [] => 0
  | 0, _ => 0
  | fuel+1, c :: s =>
    if p ≠ [] ∧ (c :: s).take p.length = p then
      occAux p fuel ((c :: s).drop p.length) + 1
    else
      occAux p fuel s

/-- Python `s.replace(pat, rep)` (for a non-empty `pat`). -/
def pyReplace (s pat rep : String) : String :=
  String.mk (replaceCharsAux pat.data rep.data s.data.length s.data)

/-- Occurrence count of `pat` in `s` as seen by `pyReplace`. -/
def strOcc (pat s : String) : Nat :=
  occAux pat.data s.data.length s.data

/-- Prefix of `s` before the first occurrence of `sep` (the whole string
when `sep` does not occur): Python `s.split(sep)[0]`. -/
def beforeFirstAux (sep : List Char) : Nat → List Char → List Char
  | _, [] => []
  | 0, s => s
  | fuel+1, c :: s =>
    if sep ≠ [] ∧ (c :: s).take sep.length = sep then []
    else c :: beforeFirstAux sep fuel s

/-- Fuelled worker for Python `str.split(sep)` (non-empty `sep`):
`cur` is the reversed chunk accumulated so far. -/
def splitChunksAux (sep : List Char) : Nat → List Char → List Char → List (List Char)
  | _, cur, [] => [cur.reverse]
  | 0, cur, s => [cur.reverse ++ s]
  | fuel+1, cur, c :: s =>
    if sep ≠ [] ∧ (c :: s).take sep.length = sep then
      cur.reverse :: splitChunksAux sep fuel [] ((c :: s).drop sep.length)
    else
      splitChunksAux sep fuel (c :: cur) s

/-- Python `s.split(sep)[-1]` for a non-empty `sep`. -/
def pySplitLast (s sep : String) : String :=
  String.mk ((splitChunksAux sep.data s.data.length [] s.data).getLastD [])

/-- Python `s.split(sep)[0]` for a non-empty `sep`. -/
def pySplitHead (s sep : String) : String :=
  String.mk (beforeFirstAux sep.data s.data.length s.data)

/-- Skip past the first `'>'`, returning the remainder, or `none` when no
`'>'` exists. -/
def dropThroughGt : List Char → Option (List Char)
  | [] => none
  | c :: s => if c = '>' then some s else dropThroughGt s

/-- Fuelled worker for Python `re.sub(r'<[^>]+>', '', s)`: delete every
leftmost match of `<[^>]+>` (a `'<'`, at least one non-`'>'`, then `'>'`). -/
def stripTagsAux : Nat → List Char → List Char
  | _, [] => []
  | 0, s => s
  | fuel+1, c :: s =>
    if c = '<' then
      match s with
      | [] => ['<']
      | d :: _ =>
        if d = '>' then c :: stripTagsAux fuel s
        else
          match dropThroughGt s with
          | some rest => stripTagsAux fuel rest
          | none => c :: stripTagsAux fuel s
    else c :: stripTagsAux fuel s

/-- Python `re.sub(r'<[^>]+>', '', s)`. -/
def stripTags (s : String) : String :=
  String.mk (stripTagsAux s.data.length s.data)

/-- The decimal digit characters, for rendering numbers as Python does. -/
def digitCh (d : Nat) : Char :=
  match d with
  | 0 => '0' | 1 => '1' | 2 => '2' | 3 => '3' | 4 => '4'
  | 5 => '5' | 6 => '6' | 7 => '7' | 8 => '8' | _ => '9'

/-- Inverse of `digitCh` on decimal digits (Python `int` on one digit). -/
def chDigit (c : Char) : Nat :=
  match c with
  | '0' => 0 | '1' => 1 | '2' => 2 | '3' => 3 | '4' => 4
  | '5' => 5 | '6' => 6 | '7' => 7 | '8' => 8 | '9' => 9 | _ => 0

/-- Fuelled decimal rendering of a natural number (most significant digit
first), as a Python f-string renders an `int`. -/
def natDigitsAux : Nat → Nat → List Char
  | 0, _ => []
  | fuel+1, n =>
    if n < 10 then [digitCh n] else natDigitsAux fuel (n / 10) ++ [digitCh (n % 10)]

/-- Python `str(n)` / f-string rendering of a non-negative int. -/
def natToStr (n : Nat) : String :=
  String.mk (natDigitsAux (n + 1) n)

/-- Python `int(s)` on a string of decimal digits. -/
def pyIntDigits (s : String) : Nat :=
  s.data.foldl (fun a c => a * 10 + chDigit c) 0

/-- `int(math.ceil(a / b))` for non-negative ints, exact (the source's
float division is exact at the magnitudes involved). -/
def pyCeilDiv (a b : Nat) : Nat := (a + b - 1) / b

/-! ## The `(\d*\,*\d+) properties` regex -/

/-- The literal tail ` properties` required after the captured group. -/
def literalProps : List Char := " properties".data

/-- Attempt to match `(\d*\,*\d+) properties` at the head of `cs`,
returning the captured group.  With full backtracking the pattern can
only succeed with a maximal digit run, a maximal comma run and a maximal
digit run (the trailing literal starts with a space, so no shorter
greedy choice can succeed), which this function implements directly. -/
def matchAt (cs : List Char) : Option (List Char) :=
  let a := cs.takeWhile Char.isDigit
  let rest1 := cs.dropWhile Char.isDigit
  let b := rest1.takeWhile (fun c => c = ',')
  let rest2 := rest1.dropWhile (fun c => c = ',')
  if b.isEmpty then
    if a.isEmpty then none
    else if rest1.take 11 = literalProps then some a else none
  else
    let c2 := rest2.takeWhile Char.isDigit
    let rest3 := rest2.dropWhile Char.isDigit
    if c2.isEmpty then none
    else if rest3.take 11 = literalProps then some (a ++ b ++ c2) else none

/-- Fuelled `re.findall` scan: try each position left to right; on a match
continue after the full match (group plus the 11-character literal). -/
def findMatchesAux : Nat → List Char → List (List Char)
  | _, [] => []
  | 0, _ => []
  | fuel+1, c :: s =>
    match matchAt (c :: s) with
    | some g => g :: findMatchesAux fuel ((c :: s).drop (g.length + 11))
    | none => findMatchesAux fuel s

/-- `re.findall(r"(\d*\,*\d+) properties", s)`. -/
def findMatches (s : List Char) : List (List Char) :=
  findMatchesAux s.length s

/-- parsel `SelectorList.re(pattern)`: apply the pattern to every text
node and concatenate the captures in document order. -/
def propMatches : List String → List String
  | [] => []
  | t :: rest => (findMatches t.data).map String.mk ++ propMatches rest

/-- `urllib.parse.urljoin(base, u)` where `u` came from `.get()`:
`urljoin` returns `base` when its second argument is falsy (`None` or
`""`); otherwise the join itself is delegated to the abstract collaborator
`joinUrl`. -/
def pyUrljoin (joinUrl : String → String → String) (base : String) (u : Option String) : String :=
  match u with
  | none => base
  | some s => if s = "" then base else joinUrl base s

/-! ## Data model

Parsed views of pages: each field holds what the corresponding parsel
selector expression yields on that page (`Option` mirrors `.get()`,
lists mirror iteration over a selector's matches). -/

instance exceptDecEq {ε α : Type} [DecidableEq ε] [DecidableEq α] :
    DecidableEq (Except ε α) := fun x y =>
  match x, y with
  | .ok a, .ok b => if h : a = b then .isTrue (by rw [h]) else .isFalse (by simp [h])
  | .error a, .error b => if h : a = b then .isTrue (by rw [h]) else .isFalse (by simp [h])
  | .ok _, .error _ => .isFalse (by simp)
  | .error _, .ok _ => .isFalse (by simp)

/-- A Python exception escaping a parsing routine. -/
inductive PyError where
  | typeError
  | attributeError
  | indexError
  | assertionError
deriving DecidableEq

/-- One entry of the location-resolution response, after the candidate's
`"details"` key has been looked up: `none` when `r.get("details")` is
missing or falsy (the `if details:` guard), `some` otherwise.
(`search_responses.py`, `LocationData`; only the field the search flow
reads is modelled.) -/
structure LocationData where
  HOTELS_URL : String
deriving DecidableEq

/-- `scrape_search.py`, `Preview`. -/
structure Preview where
  url : String
  name : String
deriving DecidableEq

/-- One `span.listItem` box on a search page (primary layout):
the `getall()` of its title text nodes and the `.get()` of its href. -/
structure PrimaryBox where
  titleTexts : List String
  href : Option String
deriving DecidableEq

/-- One `div.listing_title>a` node on a search page (secondary layout). -/
structure SecondaryBox where
  href : Option String
  text : Option String
deriving DecidableEq

/-- Selector view of a search results page. -/
structure SearchPage where
  primaryBoxes : List PrimaryBox
  secondaryBoxes : List SecondaryBox
  spanTexts : List String
  nextPageHref : Option String
deriving DecidableEq

/-- An httpx response for a search page: status code, final URL
(`response.url`, used as the `urljoin` base) and the parsed view. -/
structure SearchResponse where
  status : Nat
  url : String
  page : SearchPage
deriving DecidableEq

/-- The decoded `aggregateRating` JSON member. -/
structure AggregateRating where
  reviewCount : Nat
deriving DecidableEq

/-- The embedded structured-data JSON block of a hotel page
(`basic_data` in the source). -/
structure BasicData where
  aggregateRating : AggregateRating
deriving DecidableEq

/-- Selector view of one `div[@data-reviewid]` review container:
the `.get()` result of each of the four field selectors. -/
structure ReviewNode where
  titleNode : Option String
  textNode : Option String
  rateNode : Option String
  tripNode : Option String
deriving DecidableEq

/-- `scrape_reviews.py` review dict:
`{"title": ..., "text": ..., "rate": ..., "tripDate": ...}`. -/
structure ReviewRecord where
  title : Option String
  text : String
  rate : Option String
  tripDate : String
deriving DecidableEq

/-- Selector view of a hotel page.  `scriptData` is `none` when the
`aggregateRating` script node is missing or its JSON undecodable (either
way `json.loads` raises). -/
structure HotelPage where
  scriptData : Option BasicData
  descriptionNode : Option String
  amenityNodes : List String
  reviewNodes : List ReviewNode
deriving DecidableEq

/-- Return value of `parse_hotel_page` (the `featues` typo is the
source's). -/
structure HotelData where
  basic_data : BasicData
  description : Option String
  featues : List String
  reviews : List ReviewRecord
deriving DecidableEq

/-- An httpx response for a hotel page. -/
structure HotelResponse where
  status : Nat
  page : HotelPage
deriving DecidableEq

/-! ## search_responses.py -/

/-- `scrape_location_data`, sanitising loop (lines 91-98): keep each
result's `details` payload when present and truthy, drop it (with a
warning) otherwise.  The function returns the possibly-empty list; it
raises nothing on emptiness. -/
def scrape_location_data : List (Option LocationData) → List LocationData
  | [] => []
  | none :: rest => scrape_location_data rest
  | some d :: rest => d :: scrape_location_data rest

/-! ## scrape_search.py -/

/-- Primary selector strategy of `parse_search_page` (lines 27-35): for
each `span.listItem` box take `getall()[1]` of the title texts (an
`IndexError` if fewer than two matched) and `urljoin` the href. -/
def parsePrimaryBoxes (joinUrl : String → String → String) (respUrl : String) :
    List PrimaryBox → Except PyError (List Preview)
  | [] => .ok []
  | b :: rest =>
    match b.titleTexts.get? 1 with
    | none => .error .indexError
    | some title =>
      match parsePrimaryBoxes joinUrl respUrl rest with
      | .error e => .error e
      | .ok ps => .ok ({ url := pyUrljoin joinUrl respUrl b.href, name := title } :: ps)

/-- Secondary selector strategy of `parse_search_page` (lines 39-47):
for each `div.listing_title>a` node, join the href and take the part of
the text after the last `". "` (`.get("")` defaults to the empty
string). -/
def parseSecondaryBoxes (joinUrl : String → String → String) (respUrl : String) :
    List SecondaryBox → List Preview
  | [] => []
  | b :: rest =>
    { url := pyUrljoin joinUrl respUrl b.href,
      name := pySplitLast (b.text.getD "") ". " } :: parseSecondaryBoxes joinUrl respUrl rest

/-- `parse_search_page` (lines 20-48): run the primary strategy; return
its previews when non-empty, otherwise append the secondary strategy's
previews to the (empty) accumulator and return those. -/
def parse_search_page (joinUrl : String → String → String) (response : SearchResponse) :
    Except PyError (List Preview) :=
  match parsePrimaryBoxes joinUrl response.url response.page.primaryBoxes with
  | .error e => .error e
  | .ok parsed =>
    if parsed.isEmpty then
      .ok (parsed ++ parseSecondaryBoxes joinUrl response.url response.page.secondaryBoxes)
    else
      .ok parsed

/-- Pagination clamp of `scrape_search_hotel_urls` (lines 87-93):
`total_pages = ceil(total_results / page_size)`, then
`if max_pages and total_pages > max_pages: total_pages = max_pages`
(Python truthiness: `max_pages = 0` skips the clamp). -/
def code_total_pages (total_results page_size : Nat) (max_pages : Option Nat) : Nat :=
  let tp := pyCeilDiv total_results page_size
  match max_pages with
  | some mp => if mp ≠ 0 ∧ tp > mp then mp else tp
  | none => tp

/-- Offset URL generation of `scrape_search_hotel_urls` (lines 99-102):
`next_page_url.replace(f"oa{page_size}", f"oa{page_size * i}")`
for `i in range(1, total_pages)`. -/
def other_page_urls (next_page_url : String) (page_size total_pages : Nat) : List String :=
  (List.range' 1 (total_pages - 1)).map fun i =>
    pyReplace next_page_url ("oa" ++ natToStr page_size) ("oa" ++ natToStr (page_size * i))

/-- Sequential model of the `asyncio.as_completed` loop (lines 106-107):
parse each follow-up response and concatenate the previews; an exception
in any parse aborts the whole call. -/
def parseFollowUps (joinUrl : String → String → String) :
    List SearchResponse → Except PyError (List Preview)
  | [] => .ok []
  | r :: rest =>
    match parse_search_page joinUrl r with
    | .error e => .error e
    | .ok ps =>
      match parseFollowUps joinUrl rest with
      | .error e => .error e
      | .ok more => .ok (ps ++ more)

/-- Outcome of one paginator call: the URLs passed to `client.get` in
issue order, and the returned value or escaping exception. -/
structure SearchRun where
  fetched : List String
  result : Except PyError (List Preview)
deriving DecidableEq

/-- The hotel-search URL built from the resolved location (line 63). -/
def searchBase (location_data : LocationData) : String :=
  "https://www.tripadvisor.com" ++ location_data.HOTELS_URL

/-- `scrape_search_hotel_urls` (lines 51-111).  `locationResults` is the
decoded suggestion-endpoint response; `fetch` is the transport. -/
def scrape_search_hotel_urls (joinUrl : String → String → String)
    (locationResults : List (Option LocationData))
    (fetch : String → SearchResponse) (max_pages : Option Nat) : SearchRun :=
  match (scrape_location_data locationResults).head? with
  | none => { fetched := [], result := .ok [] }        -- IndexError caught: return []
  | some location_data =>
    let hotel_search_url := searchBase location_data
    let first_page := fetch hotel_search_url
    if first_page.status ≠ 200 then
      { fetched := [hotel_search_url], result := .ok [] }   -- log and return []
    else
      match parse_search_page joinUrl first_page with
      | .error e => { fetched := [hotel_search_url], result := .error e }
      | .ok [] => { fetched := [hotel_search_url], result := .ok [] }  -- "found no results"
      | .ok (r :: rs) =>
        let results := r :: rs
        let page_size := results.length
        match propMatches first_page.page.spanTexts with
        | [] => { fetched := [hotel_search_url], result := .error .indexError }  -- [0] of []
        | m :: _ =>
          let total_results := pyIntDigits (pyReplace m "," "")
          let next_page_url := pyUrljoin joinUrl hotel_search_url first_page.page.nextPageHref
          let total_pages := code_total_pages total_results page_size max_pages
          let other_urls := other_page_urls next_page_url page_size total_pages
          if other_urls.Nodup then            -- assert len(set(...)) == len(...)
            match parseFollowUps joinUrl (other_urls.map fetch) with
            | .error e => { fetched := hotel_search_url :: other_urls, result := .error e }
            | .ok more =>
              { fetched := hotel_search_url :: other_urls, result := .ok (results ++ more) }
          else
            { fetched := [hotel_search_url], result := .error .assertionError }

/-! ## scrape_reviews.py -/

/-- Field extraction for one review container (`parse_hotel_page`,
lines 36-56).  `title` is `.get()` directly (safe).  `text` feeds the
`.get()` result straight into `re.sub`, so a missing node raises
`TypeError`.  `rate` is guarded by truthiness (`None` on a missing or
empty match), then `split(".")[0]`.  The trip date calls
`.get().strip()`, so a missing node raises `AttributeError`. -/
def parseReviewNode (rv : ReviewNode) : Except PyError ReviewRecord :=
  match rv.textNode with
  | none => .error .typeError
  | some t =>
    let text := pyStrip (stripTags t)
    let rate :=
      match rv.rateNode with
      | none => none
      | some r => if r = "" then none else some (pySplitHead r ".")
    match rv.tripNode with
    | none => .error .attributeError
    | some trip =>
      .ok { title := rv.titleNode, text := text, rate := rate, tripDate := pyStrip trip }

/-- The review loop of `parse_hotel_page` (lines 34-56): containers are
processed in document order, appending each record; the first exception
aborts the whole page parse. -/
def parseReviews : List ReviewNode → Except PyError (List ReviewRecord)
  | [] => .ok []
  | rv :: rest =>
    match parseReviewNode rv with
    | .error e => .error e
    | .ok rec =>
      match parseReviews rest with
      | .error e => .error e
      | .ok recs => .ok (rec :: recs)

/-- `parse_hotel_page` (`scrape_reviews.py`, lines 22-63): `json.loads`
of the script node's `.get()` raises when the node is absent or the JSON
undecodable; description and amenities are null-safe; then the review
loop runs. -/
def parse_hotel_page (page : HotelPage) : Except PyError HotelData :=
  match page.scriptData with
  | none => .error .typeError
  | some basic_data =>
    match parseReviews page.reviewNodes with
    | .error e => .error e
    | .ok reviews =>
      .ok { basic_data := basic_data, description := page.descriptionNode,
            featues := page.amenityNodes, reviews := reviews }

/-- Review-page clamp of `scrape_hotel_reviews` (lines 73-79):
`total_review_pages = ceil(total_reviews / 10)`, then
`if max_review_pages and max_review_pages < total_review_pages:
total_review_pages = max_review_pages`. -/
def code_total_review_pages (total_reviews : Nat) (max_review_pages : Option Nat) : Nat :=
  let tp := pyCeilDiv total_reviews 10
  match max_review_pages with
  | some mp => if mp ≠ 0 ∧ mp < tp then mp else tp
  | none => tp

/-- Offset URL generation of `scrape_hotel_reviews` (lines 82-86):
`url.replace("-Reviews-", f"-Reviews-or{10 * i}-")` for
`i in range(1, total_review_pages)`. -/
def review_page_urls (url : String) (total_review_pages : Nat) : List String :=
  (List.range' 1 (total_review_pages - 1)).map fun i =>
    pyReplace url "-Reviews-" ("-Reviews-or" ++ natToStr (10 * i) ++ "-")

/-- The merge loop over follow-up responses (lines 92-94): parse each
page and concatenate its reviews in order; the first exception aborts
the call. -/
def parseReviewPages : List HotelPage → Except PyError (List ReviewRecord)
  | [] => .ok []
  | pg :: rest =>
    match parse_hotel_page pg with
    | .error e => .error e
    | .ok d =>
      match parseReviewPages rest with
      | .error e => .error e
      | .ok more => .ok (d.reviews ++ more)

/-- Outcome of one `scrape_hotel_reviews` call. -/
structure ReviewRun where
  fetched : List String
  result : Except PyError HotelData
deriving DecidableEq

/-- `scrape_hotel_reviews` (lines 66-98).  A non-200 first response
fails the `assert` ("request is blocked"); otherwise the first page is
parsed, the page count computed from `reviewCount` with fixed page size
10, the offset URLs generated and all fetched, and every follow-up
page's reviews appended to the first page's. -/
def scrape_hotel_reviews (fetch : String → HotelResponse) (url : String)
    (max_review_pages : Option Nat) : ReviewRun :=
  let first_page := fetch url
  if first_page.status ≠ 200 then
    { fetched := [url], result := .error .assertionError }
  else
    match parse_hotel_page first_page.page with
    | .error e => { fetched := [url], result := .error e }
    | .ok hotel_data =>
      let total_reviews := hotel_data.basic_data.aggregateRating.reviewCount
      let total_review_pages := code_total_review_pages total_reviews max_review_pages
      let review_urls := review_page_urls url total_review_pages
      match parseReviewPages ((review_urls.map fetch).map HotelResponse.page) with
      | .error e => { fetched := url :: review_urls, result := .error e }
      | .ok more =>
        { fetched := url :: review_urls,
          result := .ok { hotel_data with reviews := hotel_data.reviews ++ more } }

/-! ## Definitions taken from the specification's words

These follow the spec, not the source; the claims compare them with the
source-derived definitions above. -/

/-- Modelled from the spec: "Compute `totalPages = ceil(totalResults /
pageSize)`; clamp to `maxPages` if provided and smaller" — the clamp as
written applies to every provided `maxPages`, including 0. -/
def spec_total_pages (total_results page_size : Nat) (max_pages : Option Nat) : Nat :=
  let tp := pyCeilDiv total_results page_size
  match max_pages with
  | some mp => if mp < tp then mp else tp
  | none => tp

/-- Modelled from the spec: "`totalReviewPages = ceil(reviewCount / 10)`;
clamp to `maxPages` if given and smaller". -/
def spec_total_review_pages (review_count : Nat) (max_pages : Option Nat) : Nat :=
  let tp := pyCeilDiv review_count 10
  match max_pages with
  | some mp => if mp < tp then mp else tp
  | none => tp

/-- The primary selector strategy of the spec's step 2, as a standalone
function: what `parse_search_page` would return using location #1 only. -/
def primary_strategy (joinUrl : String → String → String) (response : SearchResponse) :
    Except PyError (List Preview) :=
  parsePrimaryBoxes joinUrl response.url response.page.primaryBoxes

/-- The secondary selector strategy (location #2) as a standalone
function. -/
def secondary_strategy (joinUrl : String → String → String) (response : SearchResponse) :
    List Preview :=
  parseSecondaryBoxes joinUrl response.url response.page.secondaryBoxes

/-- The record the spec expects for a review container whose text and
trip-date nodes are present: title and rating null-on-missing, text
HTML-stripped and trimmed, trip date trimmed. -/
def reviewRecordOf (rv : ReviewNode) : ReviewRecord :=
  { title := rv.titleNode
    text := pyStrip (stripTags (rv.textNode.getD ""))
    rate :=
      match rv.rateNode with
      | none => none
      | some r => if r = "" then none else some (pySplitHead r ".")
    tripDate := pyStrip (rv.tripNode.getD "") }

/-! ## Lemmas about the string primitives -/

theorem occ_repl_len (p r : List Char) :
    ∀ f s, (replaceCharsAux p r f s).length + occAux p f s * p.length
      = s.length + occAux p f s * r.length := by
  intro f
  induction f with
  | zero =>
    intro s
    cases s <;> simp [replaceCharsAux, occAux]
  | succ f ih =>
    intro s
    match s with
    | [] => simp [replaceCharsAux, occAux]
    | c :: s' =>
      by_cases h : p ≠ [] ∧ (c :: s').take p.length = p
      · have hrec := ih ((c :: s').drop p.length)
        have hple : p.length ≤ s'.length + 1 := by
          have := congrArg List.length h.2
          simp only [List.length_take, List.length_cons] at this
          omega
        have hdl : ((c :: s').drop p.length).length = s'.length + 1 - p.length := by
          simp [List.length_drop]
        simp only [replaceCharsAux, occAux, if_pos h, List.length_append,
          Nat.succ_mul, List.length_cons]
        omega
      · have hrec := ih s'
        simp only [replaceCharsAux, occAux, if_neg h, List.length_cons]
        omega

theorem repl_absent (p r : List Char) :
    ∀ f s, occAux p f s = 0 → replaceCharsAux p r f s = s := by
  intro f
  induction f with
  | zero => intro s _; cases s <;> simp [replaceCharsAux]
  | succ f ih =>
    intro s hocc
    match s with
    | [] => simp [replaceCharsAux]
    | c :: s' =>
      by_cases h : p ≠ [] ∧ (c :: s').take p.length = p
      · simp only [occAux, if_pos h] at hocc
        exact absurd hocc (Nat.succ_ne_zero _)
      · simp only [occAux, if_neg h] at hocc
        simp only [replaceCharsAux, if_neg h]
        rw [ih s' hocc]

theorem repl_contains (p r : List Char) :
    ∀ f s, 0 < occAux p f s →
      ∃ pre post, replaceCharsAux p r f s = pre ++ r ++ post := by
  intro f
  induction f with
  | zero => intro s hocc; cases s <;> simp [occAux] at hocc
  | succ f ih =>
    intro s hocc
    match s with
    | [] => simp [occAux] at hocc
    | c :: s' =>
      by_cases h : p ≠ [] ∧ (c :: s').take p.length = p
      · refine ⟨[], replaceCharsAux p r f ((c :: s').drop p.length), ?_⟩
        simp [replaceCharsAux, if_pos h]
      · simp only [occAux, if_neg h] at hocc
        obtain ⟨pre, post, hpp⟩ := ih s' hocc
        refine ⟨c :: pre, post, ?_⟩
        simp [replaceCharsAux, if_neg h, hpp]

theorem repl_inj_len (p r₁ r₂ : List Char) (hlen : r₁.length = r₂.length) :
    ∀ f s, 0 < occAux p f s →
      replaceCharsAux p r₁ f s = replaceCharsAux p r₂ f s → r₁ = r₂ := by
  intro f
  induction f with
  | zero => intro s hocc; cases s <;> simp [occAux] at hocc
  | succ f ih =>
    intro s hocc heq
    match s with
    | [] => simp [occAux] at hocc
    | c :: s' =>
      by_cases h : p ≠ [] ∧ (c :: s').take p.length = p
      · simp only [replaceCharsAux, if_pos h] at heq
        exact (List.append_inj heq hlen).1
      · simp only [occAux, if_neg h] at hocc
        simp only [replaceCharsAux, if_neg h, List.cons.injEq, true_and] at heq
        exact ih s' hocc heq

theorem repl_inj (p r₁ r₂ : List Char) (f : Nat) (s : List Char)
    (hocc : 0 < occAux p f s)
    (heq : replaceCharsAux p r₁ f s = replaceCharsAux p r₂ f s) : r₁ = r₂ := by
  have h1 := occ_repl_len p r₁ f s
  have h2 := occ_repl_len p r₂ f s
  have hL : (replaceCharsAux p r₁ f s).length = (replaceCharsAux p r₂ f s).length := by
    rw [heq]
  have hmul : occAux p f s * r₁.length = occAux p f s * r₂.length := by omega
  have hr : r₁.length = r₂.length := Nat.eq_of_mul_eq_mul_left hocc hmul
  exact repl_inj_len p r₁ r₂ hr f s hocc heq

theorem strData_inj {s t : String} (h : s.data = t.data) : s = t := by
  cases s with
  | mk d1 =>
    cases t with
    | mk d2 => exact congrArg String.mk h

theorem pyReplace_inj {s pat r₁ r₂ : String} (hocc : 0 < strOcc pat s)
    (heq : pyReplace s pat r₁ = pyReplace s pat r₂) : r₁ = r₂ := by
  have hd : replaceCharsAux pat.data r₁.data s.data.length s.data
      = replaceCharsAux pat.data r₂.data s.data.length s.data := by
    have := congrArg String.data heq
    simpa [pyReplace] using this
  exact strData_inj (repl_inj pat.data r₁.data r₂.data s.data.length s.data hocc hd)

theorem pyReplace_absent {s pat r : String} (h : strOcc pat s = 0) :
    pyReplace s pat r = s := by
  have hd := repl_absent pat.data r.data s.data.length s.data h
  apply strData_inj
  simpa [pyReplace] using hd

theorem pyReplace_contains {s pat r : String} (h : 0 < strOcc pat s) :
    ∃ pre post, (pyReplace s pat r).data = pre ++ r.data ++ post := by
  obtain ⟨pre, post, hpp⟩ := repl_contains pat.data r.data s.data.length s.data h
  exact ⟨pre, post, by simpa [pyReplace] using hpp⟩

/-! ## Decimal rendering is injective -/

/-- Decode a digit string back to the number it renders. -/
def decodeDigits (l : List Char) : Nat :=
  l.foldl (fun a c => a * 10 + chDigit c) 0

theorem chDigit_digitCh (d : Nat) (h : d < 10) : chDigit (digitCh d) = d := by
  interval_cases d <;> rfl

theorem decodeDigits_snoc (xs : List Char) (c : Char) :
    decodeDigits (xs ++ [c]) = decodeDigits xs * 10 + chDigit c := by
  simp [decodeDigits, List.foldl_append]

theorem decode_natDigitsAux : ∀ f n, n < f → decodeDigits (natDigitsAux f n) = n := by
  intro f
  induction f with
  | zero => omega
  | succ f ih =>
    intro n hn
    by_cases h : n < 10
    · simp [natDigitsAux, if_pos h, decodeDigits, chDigit_digitCh n h]
    · have h10 : (10 : Nat) ≤ n := by omega
      have hdiv : n / 10 < f := by
        have := Nat.div_lt_self (by omega : 0 < n) (by omega : 1 < 10)
        omega
      simp only [natDigitsAux, if_neg h]
      rw [decodeDigits_snoc, ih (n / 10) hdiv, chDigit_digitCh (n % 10) (Nat.mod_lt _ (by omega))]
      omega

theorem natToStr_inj {a b : Nat} (h : natToStr a = natToStr b) : a = b := by
  have hd : natDigitsAux (a + 1) a = natDigitsAux (b + 1) b := by
    have := congrArg String.data h
    simpa [natToStr] using this
  have := congrArg decodeDigits hd
  rwa [decode_natDigitsAux (a + 1) a (by omega),
    decode_natDigitsAux (b + 1) b (by omega)] at this

/-! ## Ceiling division -/

theorem pyCeilDiv_le_iff (a b k : Nat) (hb : 0 < b) :
    pyCeilDiv a b ≤ k ↔ a ≤ b * k := by
  unfold pyCeilDiv
  rw [Nat.div_le_iff_le_mul_add_pred hb]
  omega

theorem pyCeilDiv_pos (a b : Nat) (ha : 0 < a) (hb : 0 < b) : 1 ≤ pyCeilDiv a b := by
  have h := pyCeilDiv_le_iff a b 0 hb
  omega

/-! ## Properties of the generated pagination URLs -/

theorem other_page_urls_length (u : String) (ps T : Nat) :
    (other_page_urls u ps T).length = T - 1 := by
  simp [other_page_urls]

theorem review_page_urls_length (u : String) (T : Nat) :
    (review_page_urls u T).length = T - 1 := by
  simp [review_page_urls]

theorem searchRep_inj (ps i j : Nat) (hps : 0 < ps)
    (h : ("oa" ++ natToStr (ps * i) : String) = "oa" ++ natToStr (ps * j)) : i = j := by
  have hd := congrArg String.data h
  rw [String.data_append, String.data_append] at hd
  have h1 := List.append_cancel_left hd
  have h2 := natToStr_inj (strData_inj h1)
  exact Nat.eq_of_mul_eq_mul_left hps h2

theorem reviewRep_inj (i j : Nat)
    (h : ("-Reviews-or" ++ natToStr (10 * i) ++ "-" : String)
      = "-Reviews-or" ++ natToStr (10 * j) ++ "-") : i = j := by
  have hd := congrArg String.data h
  simp only [String.data_append] at hd
  have h1 := List.append_cancel_right hd
  have h2 := List.append_cancel_left h1
  have h3 := natToStr_inj (strData_inj h2)
  omega

theorem other_page_urls_nodup (u : String) (ps T : Nat) (hps : 0 < ps)
    (hocc : 0 < strOcc ("oa" ++ natToStr ps) u) :
    (other_page_urls u ps T).Nodup := by
  unfold other_page_urls
  refine List.Nodup.map_on ?_ (List.nodup_range' 1 (T - 1))
  intro x _ y _ hxy
  exact searchRep_inj ps x y hps (pyReplace_inj hocc hxy)

theorem review_page_urls_nodup (u : String) (T : Nat)
    (hocc : 0 < strOcc "-Reviews-" u) :
    (review_page_urls u T).Nodup := by
  unfold review_page_urls
  refine List.Nodup.map_on ?_ (List.nodup_range' 1 (T - 1))
  intro x _ y _ hxy
  exact reviewRep_inj x y (pyReplace_inj hocc hxy)

theorem other_page_urls_getElem (u : String) (ps T k : Nat)
    (hk : k < (other_page_urls u ps T).length) :
    (other_page_urls u ps T)[k] =
      pyReplace u ("oa" ++ natToStr ps) ("oa" ++ natToStr (ps * (1 + k))) := by
  unfold other_page_urls at hk ⊢
  simp only [List.getElem_map]
  rw [List.getElem_range'_1]

theorem review_page_urls_getElem (u : String) (T k : Nat)
    (hk : k < (review_page_urls u T).length) :
    (review_page_urls u T)[k] =
      pyReplace u "-Reviews-" ("-Reviews-or" ++ natToStr (10 * (1 + k)) ++ "-") := by
  unfold review_page_urls at hk ⊢
  simp only [List.getElem_map]
  rw [List.getElem_range'_1]

theorem other_page_urls_absent (u : String) (ps T : Nat)
    (hocc : strOcc ("oa" ++ natToStr ps) u = 0) :
    ∀ v ∈ other_page_urls u ps T, v = u := by
  intro v hv
  unfold other_page_urls at hv
  simp only [List.mem_map] at hv
  obtain ⟨i, _, rfl⟩ := hv
  exact pyReplace_absent hocc

theorem review_page_urls_absent (u : String) (T : Nat)
    (hocc : strOcc "-Reviews-" u = 0) :
    ∀ v ∈ review_page_urls u T, v = u := by
  intro v hv
  unfold review_page_urls at hv
  simp only [List.mem_map] at hv
  obtain ⟨i, _, rfl⟩ := hv
  exact pyReplace_absent hocc

/-! ## Unfolding lemmas for the two paginator flows -/

theorem scrape_reviews_unfold (fetchH : String → HotelResponse) (url : String)
    (mp : Option Nat) (hd : HotelData)
    (hst : (fetchH url).status = 200)
    (hparse : parse_hotel_page (fetchH url).page = .ok hd) :
    scrape_hotel_reviews fetchH url mp =
      match parseReviewPages
          (((review_page_urls url
              (code_total_review_pages hd.basic_data.aggregateRating.reviewCount mp)).map
            fetchH).map HotelResponse.page) with
      | .error e =>
        { fetched := url :: review_page_urls url
            (code_total_review_pages hd.basic_data.aggregateRating.reviewCount mp),
          result := .error e }
      | .ok more =>
        { fetched := url :: review_page_urls url
            (code_total_review_pages hd.basic_data.aggregateRating.reviewCount mp),
          result := .ok { hd with reviews := hd.reviews ++ more } } := by
  simp [scrape_hotel_reviews, hst, hparse]

theorem scrape_search_fetched (joinUrl : String → String → String)
    (L : List (Option LocationData)) (fetchS : String → SearchResponse)
    (mp : Option Nat) (loc : LocationData) (r : Preview) (rs : List Preview)
    (m : String) (ms : List String)
    (hloc : (scrape_location_data L).head? = some loc)
    (hst : (fetchS (searchBase loc)).status = 200)
    (hparse : parse_search_page joinUrl (fetchS (searchBase loc)) = .ok (r :: rs))
    (hm : propMatches (fetchS (searchBase loc)).page.spanTexts = m :: ms)
    (hnodup : (other_page_urls
        (pyUrljoin joinUrl (searchBase loc) (fetchS (searchBase loc)).page.nextPageHref)
        (r :: rs).length
        (code_total_pages (pyIntDigits (pyReplace m "," "")) (r :: rs).length mp)).Nodup) :
    (scrape_search_hotel_urls joinUrl L fetchS mp).fetched
      = searchBase loc :: other_page_urls
          (pyUrljoin joinUrl (searchBase loc) (fetchS (searchBase loc)).page.nextPageHref)
          (r :: rs).length
          (code_total_pages (pyIntDigits (pyReplace m "," "")) (r :: rs).length mp) := by
  simp only [scrape_search_hotel_urls, hloc, hst, hparse, hm]
  simp only [ne_eq, not_true_eq_false, if_false, if_pos hnodup]
  cases hE : parseFollowUps joinUrl
      ((other_page_urls
        (pyUrljoin joinUrl (searchBase loc) (fetchS (searchBase loc)).page.nextPageHref)
        (r :: rs).length
        (code_total_pages (pyIntDigits (pyReplace m "," "")) (r :: rs).length mp)).map fetchS) with
  | error e => simp [hE]
  | ok more => simp [hE]

/-! ## Claims -/

/-- C10: a caller-supplied maximum page count of 0 is treated as absent
by both paginators (the `if max_pages and ...` truthiness guard): the
call behaves exactly as with no maximum, fetching all computed pages
rather than zero or one. -/
theorem C10_zero_max_skips_clamp (joinUrl : String → String → String)
    (locationResults : List (Option LocationData)) (fetchS : String → SearchResponse)
    (fetchH : String → HotelResponse) (url : String) :
    scrape_search_hotel_urls joinUrl locationResults fetchS (some 0)
      = scrape_search_hotel_urls joinUrl locationResults fetchS none
    ∧ scrape_hotel_reviews fetchH url (some 0) = scrape_hotel_reviews fetchH url none
    ∧ (∀ tr ps, code_total_pages tr ps (some 0) = pyCeilDiv tr ps)
    ∧ (∀ rc, code_total_review_pages rc (some 0) = pyCeilDiv rc 10) := by
  have hs : ∀ tr ps, code_total_pages tr ps (some 0) = code_total_pages tr ps none := by
    intro tr ps; simp [code_total_pages]
  have hr : ∀ rc, code_total_review_pages rc (some 0) = code_total_review_pages rc none := by
    intro rc; simp [code_total_review_pages]
  refine ⟨?_, ?_, ?_, ?_⟩
  · simp only [scrape_search_hotel_urls, hs]
  · simp only [scrape_hotel_reviews, hr]
  · intro tr ps; simp [code_total_pages]
  · intro rc; simp [code_total_review_pages]

/-- C8: `parse_search_page` applies the primary selector strategy first
and returns its previews whenever they are non-empty; only when the
primary strategy yields zero previews does it return the secondary
strategy's previews. -/
theorem C8_primary_then_secondary (joinUrl : String → String → String)
    (response : SearchResponse) (l : List Preview)
    (hp : primary_strategy joinUrl response = .ok l) :
    parse_search_page joinUrl response
      = if l.isEmpty then .ok (secondary_strategy joinUrl response) else .ok l := by
  unfold primary_strategy at hp
  unfold parse_search_page secondary_strategy
  rw [hp]
  cases l with
  | nil => simp
  | cons a as => simp

/-- First page used by the C8 witness: primary layout absent, secondary
layout carrying one listing. -/
def c8resp : SearchResponse :=
  { status := 200, url := "https://t.example/s",
    page := { primaryBoxes := [],
              secondaryBoxes := [{ href := some "/a", text := some "1. Grand Hotel" }],
              spanTexts := [], nextPageHref := none } }

theorem C8_primary_then_secondary_witness :
    parse_search_page (fun _ u => u) c8resp
      = Except.ok [{ url := "/a", name := "Grand Hotel" }] :=
  (C8_primary_then_secondary (fun _ u => u) c8resp [] rfl).trans (by decide)

/-! ### C1: per-field null-safety of review extraction -/

theorem parseReviews_ok (l : List ReviewNode)
    (h : ∀ rv ∈ l, rv.textNode ≠ none ∧ rv.tripNode ≠ none) :
    parseReviews l = .ok (l.map reviewRecordOf) := by
  induction l with
  | nil => rfl
  | cons rv rest ih =>
    have hrv := h rv (by simp)
    obtain ⟨t, ht⟩ := Option.ne_none_iff_exists'.mp hrv.1
    obtain ⟨tp, htp⟩ := Option.ne_none_iff_exists'.mp hrv.2
    have hrest := ih (fun x hx => h x (by simp [hx]))
    simp only [List.map_cons, parseReviews, parseReviewNode, ht, htp, hrest]
    simp [reviewRecordOf, ht, htp]

theorem parseReviews_err (l : List ReviewNode)
    (h : ∃ rv ∈ l, rv.textNode = none ∨ rv.tripNode = none) :
    ∃ e, parseReviews l = .error e := by
  induction l with
  | nil => simp at h
  | cons rv rest ih =>
    rcases h with ⟨x, hx, hbad⟩
    rcases List.mem_cons.mp hx with rfl | hx'
    · rcases hbad with hb | hb
      · exact ⟨.typeError, by simp [parseReviews, parseReviewNode, hb]⟩
      · cases ht : x.textNode with
        | none => exact ⟨.typeError, by simp [parseReviews, parseReviewNode, ht]⟩
        | some t =>
          exact ⟨.attributeError, by simp [parseReviews, parseReviewNode, ht, hb]⟩
    · obtain ⟨e, he⟩ := ih ⟨x, hx', hbad⟩
      cases hn : parseReviewNode rv with
      | error e0 => exact ⟨e0, by simp [parseReviews, hn]⟩
      | ok r0 => exact ⟨e, by simp [parseReviews, hn, he]⟩

/-- C1 (amended): in `parse_hotel_page`, the title and rating
extractions are null-safe — a review container with those nodes missing
still yields a record, with `title`/`rate` set to `none` and the other
fields populated from the same container — but the body-text and
trip-date extractions are not: a container missing either of those
nodes raises (`TypeError` from `re.sub(None)` resp. `AttributeError`
from `None.strip()`), aborting the parse of the whole page. -/
theorem C1_field_null_safety (page : HotelPage) (bd : BasicData)
    (hbd : page.scriptData = some bd) :
    ((∀ rv ∈ page.reviewNodes, rv.textNode ≠ none ∧ rv.tripNode ≠ none) →
      parse_hotel_page page = Except.ok
        { basic_data := bd, description := page.descriptionNode,
          featues := page.amenityNodes,
          reviews := page.reviewNodes.map reviewRecordOf })
    ∧ ((∃ rv ∈ page.reviewNodes, rv.textNode = none ∨ rv.tripNode = none) →
      ∃ e, parse_hotel_page page = Except.error e) := by
  constructor
  · intro h
    simp [parse_hotel_page, hbd, parseReviews_ok page.reviewNodes h]
  · intro h
    obtain ⟨e, he⟩ := parseReviews_err page.reviewNodes h
    exact ⟨e, by simp [parse_hotel_page, hbd, he]⟩

/-- Hotel page with one complete review container whose title node is
absent (C1 witness, success side). -/
def c1okPage : HotelPage :=
  { scriptData := some { aggregateRating := { reviewCount := 2 } },
    descriptionNode := some "desc",
    amenityNodes := ["Pool"],
    reviewNodes := [{ titleNode := none, textNode := some "<span>Good</span>",
                      rateNode := some "5.0 of 5 bubbles", tripNode := some " May 2024" }] }

/-- Hotel page whose only review container lacks its trip-date node
(C1 witness, failure side). -/
def c1badPage : HotelPage :=
  { scriptData := some { aggregateRating := { reviewCount := 2 } },
    descriptionNode := none, amenityNodes := [],
    reviewNodes := [{ titleNode := some "T", textNode := some "ok",
                      rateNode := none, tripNode := none }] }

theorem C1_field_null_safety_witness :
    parse_hotel_page c1okPage = Except.ok
      { basic_data := { aggregateRating := { reviewCount := 2 } },
        description := some "desc", featues := ["Pool"],
        reviews := [{ title := none, text := "Good", rate := some "5",
                      tripDate := "May 2024" }] }
    ∧ ∃ e, parse_hotel_page c1badPage = Except.error e := by
  constructor
  · have h := (C1_field_null_safety c1okPage _ rfl).1 (by decide)
    rw [h]; decide
  · exact (C1_field_null_safety c1badPage _ rfl).2 (by decide)

/-- Hotel page whose middle review container lacks its trip-date node
while the surrounding containers are complete. -/
def c1cxPage : HotelPage :=
  { scriptData := some { aggregateRating := { reviewCount := 3 } },
    descriptionNode := none, amenityNodes := [],
    reviewNodes :=
      [{ titleNode := some "A", textNode := some "x", rateNode := some "4.0",
         tripNode := some "May" },
       { titleNode := some "B", textNode := some "y", rateNode := some "5.0",
         tripNode := none },
       { titleNode := some "C", textNode := some "z", rateNode := some "3.0",
         tripNode := some "June" }] }

/-- C1 counterexample: a single review container missing only its
trip-date node makes `parse_hotel_page` raise (`AttributeError` from
`.get().strip()`), aborting the parse of the remaining reviews — the
claim's "yields null for that field and never raises" fails. -/
theorem C1_counterexample :
    parse_hotel_page c1cxPage = Except.error PyError.attributeError := by decide

/-! ### C4: non-200 primary fetch -/

/-- C4 (amended): a non-200 first response makes the review paginator
raise its blocked-assertion immediately (no retry, no further fetch),
but makes the search paginator log and return an empty preview list —
a value, not an error — also without retrying. -/
theorem C4_non200_first_fetch :
    (∀ (joinUrl : String → String → String) (L : List (Option LocationData))
      (fetchS : String → SearchResponse) (mp : Option Nat) (loc : LocationData),
      (scrape_location_data L).head? = some loc →
      (fetchS (searchBase loc)).status ≠ 200 →
      scrape_search_hotel_urls joinUrl L fetchS mp
        = { fetched := [searchBase loc], result := .ok [] })
    ∧ (∀ (fetchH : String → HotelResponse) (url : String) (mp : Option Nat),
      (fetchH url).status ≠ 200 →
      scrape_hotel_reviews fetchH url mp
        = { fetched := [url], result := .error .assertionError }) := by
  constructor
  · intro joinUrl L fetchS mp loc hloc hst
    simp [scrape_search_hotel_urls, hloc, hst]
  · intro fetchH url mp hst
    simp [scrape_hotel_reviews, hst]

/-- Blocked responses used by the C4 witness and counterexample. -/
def c4fetchS : String → SearchResponse :=
  fun _ => { status := 403, url := "https://t.example/s",
             page := { primaryBoxes := [], secondaryBoxes := [], spanTexts := [],
                       nextPageHref := none } }

def c4fetchH : String → HotelResponse :=
  fun _ => { status := 403,
             page := { scriptData := none, descriptionNode := none,
                       amenityNodes := [], reviewNodes := [] } }

theorem C4_non200_first_fetch_witness :
    scrape_search_hotel_urls (fun _ u => u) [some { HOTELS_URL := "/h" }] c4fetchS none
      = { fetched := ["https://www.tripadvisor.com/h"], result := Except.ok [] }
    ∧ scrape_hotel_reviews c4fetchH "https://t.example/h" none
      = { fetched := ["https://t.example/h"], result := Except.error .assertionError } :=
  ⟨(C4_non200_first_fetch).1 (fun _ u => u) [some { HOTELS_URL := "/h" }] c4fetchS none
      { HOTELS_URL := "/h" } rfl (by decide),
   (C4_non200_first_fetch).2 c4fetchH "https://t.example/h" none (by decide)⟩

/-- C4 counterexample: on a 403 status the search paginator returns the
value `[]` to its caller instead of failing with a blocked error. -/
theorem C4_counterexample :
    (c4fetchS "https://www.tripadvisor.com/h").status = 403
    ∧ (scrape_search_hotel_urls (fun _ u => u) [some { HOTELS_URL := "/h" }]
        c4fetchS none).result = Except.ok [] := by decide

/-! ### C6: empty location resolution -/

/-- C6 (amended): when every candidate lacks a truthy `details` payload,
`scrape_location_data` returns the empty list without raising any error;
the caller's `[0]` indexing raises `IndexError`, which it catches itself
and turns into the value `[]` with no fetch performed — there is no
`NotFoundError` anywhere. -/
theorem C6_empty_resolution (L : List (Option LocationData))
    (hL : ∀ r ∈ L, r = none) :
    scrape_location_data L = []
    ∧ ∀ (joinUrl : String → String → String) (fetchS : String → SearchResponse)
        (mp : Option Nat),
        scrape_search_hotel_urls joinUrl L fetchS mp
          = { fetched := [], result := .ok [] } := by
  have hemp : scrape_location_data L = [] := by
    induction L with
    | nil => rfl
    | cons a rest ih =>
      have ha := hL a (by simp)
      subst ha
      exact ih (fun x hx => hL x (by simp [hx]))
  refine ⟨hemp, ?_⟩
  intro joinUrl fetchS mp
  simp [scrape_search_hotel_urls, hemp]

/-- A transport stub for the C6 scenarios (never reached: the location
step already returns empty). -/
def c6fetch : String → SearchResponse :=
  fun _ => { status := 200, url := "https://t.example/s",
             page := { primaryBoxes := [], secondaryBoxes := [], spanTexts := [],
                       nextPageHref := none } }

theorem C6_empty_resolution_witness :
    scrape_location_data [none] = []
    ∧ scrape_search_hotel_urls (fun _ u => u) [none] c6fetch none
      = { fetched := [], result := Except.ok [] } :=
  ⟨(C6_empty_resolution [none] (by decide)).1,
   (C6_empty_resolution [none] (by decide)).2 (fun _ u => u) c6fetch none⟩

/-- C6 counterexample: three candidates, all without a `details`
payload: the resolver returns `[]` (no error value of any kind) and the
calling paginator returns the value `Except.ok []` — the claimed
`NotFoundError` failure does not happen. -/
theorem C6_counterexample :
    scrape_location_data [none, none, none] = []
    ∧ (scrape_search_hotel_urls (fun _ u => u) [none, none, none] c6fetch none).result
      = Except.ok []
    ∧ (scrape_search_hotel_urls (fun _ u => u) [none, none, none] c6fetch none).fetched
      = [] := by decide

/-! ### C2: offset URL generation -/

/-- C2 (amended): each pagination round generates exactly
`totalPages - 1` URLs.  When the offset-substitution token occurs in the
base URL, the URLs are pairwise distinct and the URL at index `k`
contains the offset `pageSize * (1 + k)` (index `i = 1 + k` starting at
1).  When the token is absent, every generated URL equals the base URL
unchanged — the follow-up list still has `totalPages - 1` entries, which
the review flow fetches (the search flow instead fails its distinctness
assertion as soon as that list has two entries). -/
theorem C2_offset_url_generation (u : String) (ps T : Nat) (hps : 0 < ps) :
    (other_page_urls u ps T).length = T - 1
    ∧ (review_page_urls u T).length = T - 1
    ∧ (0 < strOcc ("oa" ++ natToStr ps) u →
        (other_page_urls u ps T).Nodup
        ∧ ∀ k (hk : k < (other_page_urls u ps T).length),
            ∃ pre post, ((other_page_urls u ps T)[k]).data
              = pre ++ ("oa" ++ natToStr (ps * (1 + k))).data ++ post)
    ∧ (0 < strOcc "-Reviews-" u →
        (review_page_urls u T).Nodup
        ∧ ∀ k (hk : k < (review_page_urls u T).length),
            ∃ pre post, ((review_page_urls u T)[k]).data
              = pre ++ ("-Reviews-or" ++ natToStr (10 * (1 + k)) ++ "-").data ++ post)
    ∧ (strOcc ("oa" ++ natToStr ps) u = 0 → ∀ v ∈ other_page_urls u ps T, v = u)
    ∧ (strOcc "-Reviews-" u = 0 → ∀ v ∈ review_page_urls u T, v = u) := by
  refine ⟨other_page_urls_length u ps T, review_page_urls_length u T, ?_, ?_,
    other_page_urls_absent u ps T, review_page_urls_absent u T⟩
  · intro hocc
    refine ⟨other_page_urls_nodup u ps T hps hocc, ?_⟩
    intro k hk
    rw [other_page_urls_getElem u ps T k hk]
    exact pyReplace_contains hocc
  · intro hocc
    refine ⟨review_page_urls_nodup u T hocc, ?_⟩
    intro k hk
    rw [review_page_urls_getElem u T k hk]
    exact pyReplace_contains hocc

theorem C2_offset_url_generation_witness :
    (other_page_urls "A-Reviews-oa2-B" 2 3).Nodup
    ∧ (review_page_urls "A-Reviews-oa2-B" 3).Nodup
    ∧ (other_page_urls "A-Reviews-oa2-B" 2 3).length = 2 :=
  ⟨((C2_offset_url_generation "A-Reviews-oa2-B" 2 3 (by decide)).2.2.1 (by decide)).1,
   ((C2_offset_url_generation "A-Reviews-oa2-B" 2 3 (by decide)).2.2.2.1 (by decide)).1,
   (C2_offset_url_generation "A-Reviews-oa2-B" 2 3 (by decide)).1⟩

/-- Hotel page declaring 25 reviews, used by the C2 counterexample. -/
def c2page : HotelPage :=
  { scriptData := some { aggregateRating := { reviewCount := 25 } },
    descriptionNode := none, amenityNodes := [], reviewNodes := [] }

def c2fetch : String → HotelResponse := fun _ => { status := 200, page := c2page }

/-- C2 counterexample: with the `-Reviews-` token absent from the base
URL, the generated follow-up URLs are two identical copies of the base
URL — not pairwise distinct — and the review paginator fetches all
three URLs instead of degenerating to the single first page. -/
theorem C2_counterexample :
    review_page_urls "Hotel_Review" 3 = ["Hotel_Review", "Hotel_Review"]
    ∧ ¬ (review_page_urls "Hotel_Review" 3).Nodup
    ∧ (scrape_hotel_reviews c2fetch "Hotel_Review" none).fetched
      = ["Hotel_Review", "Hotel_Review", "Hotel_Review"] := by decide

/-! ### C5: review page count -/

theorem code_total_review_pages_le (rc : Nat) (mp : Option Nat) :
    code_total_review_pages rc mp ≤ pyCeilDiv rc 10 := by
  cases mp with
  | none => simp [code_total_review_pages]
  | some m =>
    simp only [code_total_review_pages]
    by_cases h : m ≠ 0 ∧ m < pyCeilDiv rc 10
    · rw [if_pos h]; omega
    · rw [if_neg h]

theorem code_total_review_pages_pos (rc : Nat) (mp : Option Nat) (hrc : 0 < rc) :
    1 ≤ code_total_review_pages rc mp := by
  have htp : 1 ≤ pyCeilDiv rc 10 := pyCeilDiv_pos rc 10 hrc (by omega)
  cases mp with
  | none => simpa [code_total_review_pages] using htp
  | some m =>
    simp only [code_total_review_pages]
    by_cases h : m ≠ 0 ∧ m < pyCeilDiv rc 10
    · rw [if_pos h]; omega
    · rw [if_neg h]; exact htp

/-- C5 (amended): the review paginator computes
`ceil(reviewCount / 10)` pages with the fixed page size 10, clamped to
`maxPages` when `maxPages` is given, **positive** and smaller (a given
`maxPages = 0` is ignored by the truthiness guard); in particular
`reviewCount = 25` gives 3 pages, so a call fetches the base page plus
2 follow-ups. -/
theorem C5_review_page_count :
    (∀ rc mpv, 0 < mpv → mpv < pyCeilDiv rc 10 →
      code_total_review_pages rc (some mpv) = mpv)
    ∧ (∀ rc, code_total_review_pages rc none = pyCeilDiv rc 10)
    ∧ pyCeilDiv 25 10 = 3
    ∧ (∀ (fetchH : String → HotelResponse) (url : String) (hd : HotelData),
        (fetchH url).status = 200 →
        parse_hotel_page (fetchH url).page = .ok hd →
        0 < hd.basic_data.aggregateRating.reviewCount →
        (scrape_hotel_reviews fetchH url none).fetched.length
          = pyCeilDiv hd.basic_data.aggregateRating.reviewCount 10) := by
  refine ⟨?_, ?_, by decide, ?_⟩
  · intro rc mpv h0 hlt
    simp only [code_total_review_pages]
    rw [if_pos ⟨by omega, hlt⟩]
  · intro rc
    simp [code_total_review_pages]
  · intro fetchH url hd hst hparse hrc
    rw [scrape_reviews_unfold fetchH url none hd hst hparse]
    have hT : code_total_review_pages hd.basic_data.aggregateRating.reviewCount none
        = pyCeilDiv hd.basic_data.aggregateRating.reviewCount 10 := by
      simp [code_total_review_pages]
    have hTpos := code_total_review_pages_pos hd.basic_data.aggregateRating.reviewCount none hrc
    cases hE : parseReviewPages
        (((review_page_urls url
            (code_total_review_pages hd.basic_data.aggregateRating.reviewCount none)).map
          fetchH).map HotelResponse.page) with
    | error e =>
      simp only [hE, List.length_cons, review_page_urls_length]
      omega
    | ok more =>
      simp only [hE, List.length_cons, review_page_urls_length]
      omega

/-- Hotel page declaring 25 reviews (C5). -/
def c5page : HotelPage :=
  { scriptData := some { aggregateRating := { reviewCount := 25 } },
    descriptionNode := none, amenityNodes := [], reviewNodes := [] }

def c5fetch : String → HotelResponse := fun _ => { status := 200, page := c5page }

/-- The record `parse_hotel_page` produces for `c5page`. -/
def c5hd : HotelData :=
  { basic_data := { aggregateRating := { reviewCount := 25 } },
    description := none, featues := [], reviews := [] }

theorem C5_review_page_count_witness :
    code_total_review_pages 25 (some 2) = 2
    ∧ (scrape_hotel_reviews c5fetch "H-Reviews-X" none).fetched.length = 3 :=
  ⟨(C5_review_page_count).1 25 2 (by decide) (by decide),
   ((C5_review_page_count).2.2.2 c5fetch "H-Reviews-X" c5hd rfl rfl (by decide)).trans
     (by decide)⟩

/-- C5 counterexample: with `max_review_pages = 0` and
`reviewCount = 25`, the claim's clamp ("when given and smaller",
`0 < 3`) demands 0 pages, but the code skips the clamp and fetches all
3 pages. -/
theorem C5_counterexample :
    code_total_review_pages 25 (some 0) = 3
    ∧ spec_total_review_pages 25 (some 0) = 0
    ∧ (scrape_hotel_reviews c5fetch "H-Reviews-X" (some 0)).fetched.length = 3 := by
  decide

/-! ### C3: search page count -/

/-- C3 (amended): with `N` previews on the first page, the computed
page count is `ceil(totalResults / N)` (the exact ceiling:
`pyCeilDiv a b` is the least `k` with `a ≤ b * k`), and it is replaced
by `maxPages` when `maxPages` is provided, **positive** and smaller
(a provided `maxPages = 0` is ignored by the truthiness guard);
`totalResults = 47` with `N = 10` gives 5 pages; and when
`1 ≤ maxPages < totalPages` holds and the offset token occurs in the
next-page URL, exactly `maxPages` pages are fetched in total (1 base +
`maxPages - 1` follow-ups). -/
theorem C3_total_pages (joinUrl : String → String → String)
    (L : List (Option LocationData)) (fetchS : String → SearchResponse)
    (mp : Nat) (loc : LocationData) (r : Preview) (rs : List Preview)
    (m : String) (ms : List String)
    (hloc : (scrape_location_data L).head? = some loc)
    (hst : (fetchS (searchBase loc)).status = 200)
    (hparse : parse_search_page joinUrl (fetchS (searchBase loc)) = .ok (r :: rs))
    (hm : propMatches (fetchS (searchBase loc)).page.spanTexts = m :: ms)
    (hocc : 0 < strOcc ("oa" ++ natToStr (r :: rs).length)
        (pyUrljoin joinUrl (searchBase loc) (fetchS (searchBase loc)).page.nextPageHref))
    (hmp : 1 ≤ mp)
    (hlt : mp < pyCeilDiv (pyIntDigits (pyReplace m "," "")) (r :: rs).length) :
    (scrape_search_hotel_urls joinUrl L fetchS (some mp)).fetched.length = mp
    ∧ code_total_pages (pyIntDigits (pyReplace m "," "")) (r :: rs).length (some mp) = mp
    ∧ pyCeilDiv 47 10 = 5
    ∧ (∀ a b k : Nat, 0 < b → (pyCeilDiv a b ≤ k ↔ a ≤ b * k)) := by
  have hclamp : code_total_pages (pyIntDigits (pyReplace m "," ""))
      (r :: rs).length (some mp) = mp := by
    simp only [code_total_pages]
    rw [if_pos ⟨by omega, hlt⟩]
  have hN : 0 < (r :: rs).length := by simp
  have hnodup := other_page_urls_nodup
    (pyUrljoin joinUrl (searchBase loc) (fetchS (searchBase loc)).page.nextPageHref)
    (r :: rs).length
    (code_total_pages (pyIntDigits (pyReplace m "," "")) (r :: rs).length (some mp))
    hN hocc
  refine ⟨?_, hclamp, by decide, fun a b k hb => pyCeilDiv_le_iff a b k hb⟩
  rw [scrape_search_fetched joinUrl L fetchS (some mp) loc r rs m ms hloc hst hparse hm hnodup,
    hclamp]
  simp only [List.length_cons, other_page_urls_length]
  omega

/-- Concrete first search page for the C3 witness: one preview
(`pageSize = 1`), "47 properties", next-page URL containing `oa1`. -/
def c3page : SearchPage :=
  { primaryBoxes := [{ titleTexts := ["", "Inn"], href := some "/h1" }],
    secondaryBoxes := [], spanTexts := ["47 properties"],
    nextPageHref := some "/s?oa1" }

def c3resp : SearchResponse := { status := 200, url := "https://t/s", page := c3page }

def c3fetch : String → SearchResponse := fun _ => c3resp

def c3loc : LocationData := { HOTELS_URL := "/s" }

theorem C3_total_pages_witness :
    (scrape_search_hotel_urls (fun _ u => u) [some c3loc] c3fetch (some 2)).fetched.length = 2
    ∧ code_total_pages (pyIntDigits (pyReplace "47" "," ""))
        ([{ url := "/h1", name := "Inn" }] : List Preview).length (some 2) = 2 :=
  ⟨(C3_total_pages (fun _ u => u) [some c3loc] c3fetch 2 c3loc
      { url := "/h1", name := "Inn" } [] "47" [] rfl rfl (by decide) rfl (by decide)
      (by decide) (by decide)).1,
   (C3_total_pages (fun _ u => u) [some c3loc] c3fetch 2 c3loc
      { url := "/h1", name := "Inn" } [] "47" [] rfl rfl (by decide) rfl (by decide)
      (by decide) (by decide)).2.1⟩

/-- C3 counterexample: with `max_pages = 0` provided and smaller than
the computed 5 pages (47 results, page size 10), the claim demands the
page count be replaced by 0, but the truthiness guard skips the clamp
and keeps 5. -/
theorem C3_counterexample :
    code_total_pages 47 10 (some 0) = 5 ∧ spec_total_pages 47 10 (some 0) = 0 := by
  decide

/-! ### C9: missing "<count> properties" span -/

/-- C9: when the first search page yields a non-empty preview list but
no span text matches the `(\d*\,*\d+) properties` pattern, the `[0]`
indexing of the empty match list raises an uncaught `IndexError`:
`scrape_search_hotel_urls` neither returns a value nor a named error. -/
theorem C9_missing_property_count (joinUrl : String → String → String)
    (L : List (Option LocationData)) (fetchS : String → SearchResponse)
    (mp : Option Nat) (loc : LocationData) (r : Preview) (rs : List Preview)
    (hloc : (scrape_location_data L).head? = some loc)
    (hst : (fetchS (searchBase loc)).status = 200)
    (hparse : parse_search_page joinUrl (fetchS (searchBase loc)) = .ok (r :: rs))
    (hm : propMatches (fetchS (searchBase loc)).page.spanTexts = []) :
    scrape_search_hotel_urls joinUrl L fetchS mp
      = { fetched := [searchBase loc], result := .error .indexError } := by
  simp [scrape_search_hotel_urls, hloc, hst, hparse, hm]

/-- First search page for the C9 witness: one preview, but no span text
with a properties count. -/
def c9page : SearchPage :=
  { primaryBoxes := [{ titleTexts := ["", "Inn"], href := some "/h1" }],
    secondaryBoxes := [], spanTexts := ["popular destinations"], nextPageHref := none }

def c9fetch : String → SearchResponse :=
  fun _ => { status := 200, url := "https://t/s", page := c9page }

theorem C9_missing_property_count_witness :
    scrape_search_hotel_urls (fun _ u => u) [some { HOTELS_URL := "/s" }] c9fetch none
      = { fetched := ["https://www.tripadvisor.com/s"], result := Except.error .indexError } :=
  C9_missing_property_count (fun _ u => u) [some { HOTELS_URL := "/s" }] c9fetch none
    { HOTELS_URL := "/s" } { url := "/h1", name := "Inn" } [] rfl rfl (by decide) (by decide)

/-! ### C7: merged review count versus declared reviewCount -/

theorem parseReviewPages_bound (pages : List HotelPage)
    (h : ∀ pg ∈ pages, ∃ d, parse_hotel_page pg = .ok d ∧ d.reviews.length ≤ 10) :
    ∃ rs, parseReviewPages pages = .ok rs ∧ rs.length ≤ 10 * pages.length := by
  induction pages with
  | nil => exact ⟨[], rfl, by simp⟩
  | cons pg rest ih =>
    obtain ⟨d, hd, hlen⟩ := h pg (by simp)
    obtain ⟨rs, hrs, hbound⟩ := ih (fun x hx => h x (by simp [hx]))
    refine ⟨d.reviews ++ rs, by simp [parseReviewPages, hd, hrs], ?_⟩
    simp only [List.length_append, List.length_cons]
    have : 10 * (rest.length + 1) = 10 * rest.length + 10 := by ring
    omega

/-- C7 (amended): the review paginator fetches
`code_total_review_pages reviewCount mp ≤ ceil(reviewCount / 10)` pages
and never truncates: the merged `reviews` sequence is exactly the
concatenation of what every fetched page yields.  When each fetched
page yields at most the page size of 10 reviews, its length is bounded
by `10 * ceil(reviewCount / 10)` — a bound that can exceed
`reviewCount` itself, and with over-full pages the declared
`reviewCount` bound of the original claim fails. -/
theorem C7_merged_reviews_bound (fetchH : String → HotelResponse) (url : String)
    (mp : Option Nat) (hd : HotelData)
    (hst : (fetchH url).status = 200)
    (hparse : parse_hotel_page (fetchH url).page = .ok hd)
    (hrc : 0 < hd.basic_data.aggregateRating.reviewCount)
    (hfirst : hd.reviews.length ≤ 10)
    (hrest : ∀ v ∈ review_page_urls url
        (code_total_review_pages hd.basic_data.aggregateRating.reviewCount mp),
        ∃ d, parse_hotel_page (fetchH v).page = .ok d ∧ d.reviews.length ≤ 10) :
    ∃ hd', (scrape_hotel_reviews fetchH url mp).result = .ok hd'
      ∧ hd'.reviews.length
          ≤ 10 * pyCeilDiv hd.basic_data.aggregateRating.reviewCount 10
      ∧ code_total_review_pages hd.basic_data.aggregateRating.reviewCount mp
          ≤ pyCeilDiv hd.basic_data.aggregateRating.reviewCount 10 := by
  rw [scrape_reviews_unfold fetchH url mp hd hst hparse]
  have hpages : ∀ pg ∈ ((review_page_urls url
      (code_total_review_pages hd.basic_data.aggregateRating.reviewCount mp)).map
        fetchH).map HotelResponse.page,
      ∃ d, parse_hotel_page pg = .ok d ∧ d.reviews.length ≤ 10 := by
    intro pg hpg
    simp only [List.mem_map] at hpg
    obtain ⟨resp, ⟨v, hv, rfl⟩, rfl⟩ := hpg
    exact hrest v hv
  obtain ⟨rs, hrs, hbound⟩ := parseReviewPages_bound _ hpages
  rw [hrs]
  refine ⟨_, rfl, ?_, code_total_review_pages_le _ mp⟩
  simp only [List.length_append]
  simp only [List.length_map, review_page_urls_length] at hbound
  have hTpos := code_total_review_pages_pos hd.basic_data.aggregateRating.reviewCount mp hrc
  have hTle := code_total_review_pages_le hd.basic_data.aggregateRating.reviewCount mp
  have h10 : 10 * code_total_review_pages hd.basic_data.aggregateRating.reviewCount mp
      ≤ 10 * pyCeilDiv hd.basic_data.aggregateRating.reviewCount 10 := by omega
  omega

/-- Hotel page declaring 25 reviews while carrying one complete review
container (C7 witness; the same page serves follow-up fetches). -/
def c7page : HotelPage :=
  { scriptData := some { aggregateRating := { reviewCount := 25 } },
    descriptionNode := none, amenityNodes := [],
    reviewNodes := [{ titleNode := some "T", textNode := some "b",
                      rateNode := some "4.0", tripNode := some "d" }] }

def c7fetch : String → HotelResponse := fun _ => { status := 200, page := c7page }

/-- What `parse_hotel_page` yields on `c7page`. -/
def c7hd : HotelData :=
  { basic_data := { aggregateRating := { reviewCount := 25 } },
    description := none, featues := [],
    reviews := [{ title := some "T", text := "b", rate := some "4", tripDate := "d" }] }

/-- The finalized record: first page plus two follow-up pages. -/
def c7out : HotelData :=
  { basic_data := { aggregateRating := { reviewCount := 25 } },
    description := none, featues := [],
    reviews := [{ title := some "T", text := "b", rate := some "4", tripDate := "d" },
                { title := some "T", text := "b", rate := some "4", tripDate := "d" },
                { title := some "T", text := "b", rate := some "4", tripDate := "d" }] }

theorem C7_merged_reviews_bound_witness :
    (scrape_hotel_reviews c7fetch "H-Reviews-X" none).result = Except.ok c7out
    ∧ c7out.reviews.length ≤ 10 * pyCeilDiv 25 10 := by
  have h := C7_merged_reviews_bound c7fetch "H-Reviews-X" none c7hd rfl rfl (by decide)
    (by decide) (fun v hv => ⟨c7hd, rfl, by decide⟩)
  obtain ⟨hd', h1, h2, h3⟩ := h
  have hcalc : (scrape_hotel_reviews c7fetch "H-Reviews-X" none).result
      = Except.ok c7out := by decide
  have heq : hd' = c7out := Except.ok.inj (h1.symm.trans hcalc)
  subst heq
  exact ⟨hcalc, h2⟩

/-- Hotel page declaring `reviewCount = 1` while carrying two review
containers. -/
def c7cxPage : HotelPage :=
  { scriptData := some { aggregateRating := { reviewCount := 1 } },
    descriptionNode := none, amenityNodes := [],
    reviewNodes := [{ titleNode := some "A", textNode := some "x",
                      rateNode := none, tripNode := some "d" },
                    { titleNode := some "B", textNode := some "y",
                      rateNode := none, tripNode := some "d" }] }

def c7cxFetch : String → HotelResponse := fun _ => { status := 200, page := c7cxPage }

/-- The finalized record for the C7 counterexample. -/
def c7cxOut : HotelData :=
  { basic_data := { aggregateRating := { reviewCount := 1 } },
    description := none, featues := [],
    reviews := [{ title := some "A", text := "x", rate := none, tripDate := "d" },
                { title := some "B", text := "y", rate := none, tripDate := "d" }] }

/-- C7 counterexample: a base page declaring 1 review but rendering 2
review containers gives a finalized record with 2 reviews — the merged
length exceeds the declared `reviewCount`, so the invariant does not
hold for all page contents. -/
theorem C7_counterexample :
    (scrape_hotel_reviews c7cxFetch "H-Reviews-X" none).result = Except.ok c7cxOut
    ∧ c7cxOut.reviews.length = 2
    ∧ c7cxOut.basic_data.aggregateRating.reviewCount = 1 := by decide
